/-
Verification of the model-proxy-server deployment orchestrator.

Shallow embedding of the core code:
  - services/user_service.py  (UserService: registry, load orchestration,
    stop/delete, API-key validation)
  - app.py                    (verify_api_key dependency, get_user_models,
    user_chat_completions endpoints)
  - services/inference_service.py (chat_completion)
  - models.py                 (DeploymentStatus, ModelBackend, UserDeployment,
    chat completion schemas)

Python dicts are embedded as association lists with replace-on-insert
semantics; asyncio tasks spawned by create_deployment are embedded as an
explicit list of in-flight load tasks, each load running in three atomic
segments exactly as the coroutine is cut by its single await point:
the pre-await segment (sets status to DEPLOYING), and the post-await
success / failure segments.  External effects (uuid4, secrets token,
external-IP lookup, datetime.now, the Model Runtime load/generate results)
are inputs of the corresponding steps.
-/
import Mathlib

namespace ModelProxy

/-- models.py DeploymentStatus (str Enum). -/
inductive DeploymentStatus where
  | pending
  | deploying
  | ready
  | error
  | stopped
deriving DecidableEq, Repr

/-- The `.value` of the str Enum (models.py lines 10-16). -/
def DeploymentStatus.value : DeploymentStatus → String
  | .pending => "pending"
  | .deploying => "deploying"
  | .ready => "ready"
  | .error => "error"
  | .stopped => "stopped"

/-- Python repr used when a DeploymentStatus member is interpolated into an
f-string (inference_service.py line 38). -/
def DeploymentStatus.pyStr : DeploymentStatus → String
  | .pending => "DeploymentStatus.PENDING"
  | .deploying => "DeploymentStatus.DEPLOYING"
  | .ready => "DeploymentStatus.READY"
  | .error => "DeploymentStatus.ERROR"
  | .stopped => "DeploymentStatus.STOPPED"

/-- models.py ModelBackend. -/
inductive ModelBackend where
  | transformers
  | jax
  | vllm
deriving DecidableEq, Repr

/-- models.py UserDeployment.  Timestamps are abstract clock ticks (the code
reads datetime.now(); each step takes the current tick as an input).
custom_config is an opaque key/value mapping passed through unchanged. -/
structure UserDeployment where
  user_id : String
  model_name : String
  backend : ModelBackend
  status : DeploymentStatus
  api_key : Option String
  api_key_enabled : Bool
  base_url : String
  created_at : Nat
  updated_at : Nat
  loaded_at : Option Nat
  error_message : Option String
  custom_config : List (String × String)
deriving DecidableEq, Repr

/-- The model_data dict produced by model_loader.load_model (external Model
Runtime).  Only its identity and task tag matter to the orchestrator. -/
structure ModelData where
  task : String
  handle : Nat
deriving DecidableEq, Repr

/-- Phase of an asyncio load task created by create_deployment:
scheduled = created by asyncio.create_task but body not yet started;
awaiting  = body ran up to `await model_loader.load_model(...)`. -/
inductive LoadPhase where
  | scheduled
  | awaiting
deriving DecidableEq, Repr

/-- An in-flight `_load_user_model(user_id, model_name, backend)` coroutine. -/
structure LoadTask where
  user_id : String
  model_name : String
  backend : ModelBackend
  phase : LoadPhase
deriving DecidableEq, Repr

/-- Association-list embedding of a Python dict: lookup of the first (and,
by dict semantics, only) binding of a key. -/
def dictGet {α : Type} (d : List (String × α)) (k : String) : Option α :=
  match d with
  | [] => none
  | (k1, v) :: rest => if k1 = k then some v else dictGet rest k

/-- Python dict assignment `d[k] = v`: replace the existing binding in place,
else append. -/
def dictInsert {α : Type} (d : List (String × α)) (k : String) (v : α) :
    List (String × α) :=
  match d with
  | [] => [(k, v)]
  | (k1, v1) :: rest =>
      if k1 = k then (k, v) :: rest else (k1, v1) :: dictInsert rest k v

/-- Python `del d[k]`: remove the binding of k. -/
def dictErase {α : Type} (d : List (String × α)) (k : String) :
    List (String × α) :=
  match d with
  | [] => []
  | (k1, v1) :: rest =>
      if k1 = k then rest else (k1, v1) :: dictErase rest k

/-- The keys of a dict embedding. -/
def dictKeys {α : Type} (d : List (String × α)) : List String :=
  d.map Prod.fst

/-- The mutable state of the global UserService instance
(user_service.py lines 22-24), extended with the list of `_load_user_model`
coroutines spawned by asyncio.create_task that have not yet finished. -/
structure UserServiceState where
  deployments : List (String × UserDeployment)
  active_models : List (String × ModelData)
  pending_loads : List LoadTask
deriving DecidableEq, Repr

/-- State at process start: both dicts empty, no coroutine in flight. -/
def initState : UserServiceState := ⟨[], [], []⟩

/-- `if not user_id: user_id = self.generate_user_id()`
(user_service.py lines 45-46).  Python `not user_id` is true for None and
for the empty string; the uuid4 value is the external input freshId. -/
def resolveUserId (userIdOpt : Option String) (freshId : String) : String :=
  match userIdOpt with
  | none => freshId
  | some u => if u = "" then freshId else u

/-- The fresh UserDeployment record built by create_deployment
(user_service.py lines 54-71).  tok is the secrets.token_urlsafe output,
externalIp the _get_external_ip result (falls back to "localhost"),
now the datetime.now() tick. -/
def freshDeployment (user_id model_name : String) (backend : ModelBackend)
    (api_key_enabled : Bool) (custom_config : List (String × String))
    (tok externalIp : String) (port now : Nat) : UserDeployment :=
  { user_id := user_id
    model_name := model_name
    backend := backend
    status := .deploying
    api_key := if api_key_enabled then some ("sk-" ++ tok) else none
    api_key_enabled := api_key_enabled
    base_url := "http://" ++ externalIp ++ ":" ++ toString port ++ "/user/"
      ++ user_id ++ "/v1"
    created_at := now
    updated_at := now
    loaded_at := none
    error_message := none
    custom_config := custom_config }

/-- The tail of create_deployment past the early idempotency return
(user_service.py lines 54-80): build the fresh record, store it, and spawn
the `_load_user_model` task. -/
def create_deployment_fresh (s : UserServiceState)
    (user_id model_name : String) (backend : ModelBackend)
    (api_key_enabled : Bool) (custom_config : List (String × String))
    (tok externalIp : String) (port now : Nat) :
    UserDeployment × UserServiceState :=
  let d := freshDeployment user_id model_name backend api_key_enabled
    custom_config tok externalIp port now
  (d, { s with
    deployments := dictInsert s.deployments user_id d
    pending_loads := s.pending_loads ++
      [⟨user_id, model_name, backend, LoadPhase.scheduled⟩] })

/-- UserService.create_deployment (user_service.py lines 34-80).  Returns the
deployment handed back to the caller and the state after the synchronous part
of the call (the record stored and the `_load_user_model` task scheduled).
If the user already has the same model deployed with a status other than
ERROR, the existing record is returned unchanged and no load is scheduled. -/
def create_deployment (s : UserServiceState) (model_name : String)
    (backend : ModelBackend) (api_key_enabled : Bool)
    (userIdOpt : Option String) (custom_config : List (String × String))
    (freshId tok externalIp : String) (port now : Nat) :
    UserDeployment × UserServiceState :=
  let user_id := resolveUserId userIdOpt freshId
  match dictGet s.deployments user_id with
  | some existing =>
      if existing.model_name = model_name ∧ existing.status ≠ .error then
        (existing, s)
      else
        create_deployment_fresh s user_id model_name backend api_key_enabled
          custom_config tok externalIp port now
  | none =>
      create_deployment_fresh s user_id model_name backend api_key_enabled
        custom_config tok externalIp port now

/-- The segment of `_load_user_model` before its await point
(user_service.py lines 84-89): the coroutine body starts running and
re-asserts status DEPLOYING if the deployment record still exists, then
suspends on `await model_loader.load_model(...)`. -/
def load_user_model_begin (s : UserServiceState) (i : Nat) : UserServiceState :=
  match s.pending_loads[i]? with
  | none => s
  | some t =>
      let pl := s.pending_loads.set i { t with phase := .awaiting }
      match dictGet s.deployments t.user_id with
      | some d =>
          let d2 := { d with status := DeploymentStatus.deploying }
          { s with
            pending_loads := pl
            deployments := dictInsert s.deployments t.user_id d2 }
      | none => { s with pending_loads := pl }

/-- The success segment of `_load_user_model` after the await resolves
(user_service.py lines 92-102): the loaded model_data (md, produced by the
external Model Runtime) is stored in active_models unconditionally, then, if
the deployment record still exists, its status is set to READY and
loaded_at/updated_at to now. -/
def load_user_model_success (s : UserServiceState) (i : Nat) (md : ModelData)
    (now : Nat) : UserServiceState :=
  match s.pending_loads[i]? with
  | none => s
  | some t =>
      let s1 := { s with
        pending_loads := s.pending_loads.eraseIdx i
        active_models := dictInsert s.active_models t.user_id md }
      match dictGet s1.deployments t.user_id with
      | some d =>
          let d2 := { d with status := DeploymentStatus.ready,
                             loaded_at := some now, updated_at := now }
          { s1 with deployments := dictInsert s1.deployments t.user_id d2 }
      | none => s1

/-- The failure segment of `_load_user_model` (user_service.py lines
106-114): any exception from the load is caught; if the deployment record
still exists its status becomes ERROR and error_message records str(e).
No model is stored in active_models on this path. -/
def load_user_model_failure (s : UserServiceState) (i : Nat) (err : String)
    (now : Nat) : UserServiceState :=
  match s.pending_loads[i]? with
  | none => s
  | some t =>
      let s1 := { s with pending_loads := s.pending_loads.eraseIdx i }
      match dictGet s1.deployments t.user_id with
      | some d =>
          let d2 := { d with status := DeploymentStatus.error,
                             error_message := some err, updated_at := now }
          { s1 with deployments := dictInsert s1.deployments t.user_id d2 }
      | none => s1

/-- UserService.get_deployment (user_service.py lines 116-118). -/
def get_deployment (s : UserServiceState) (user_id : String) :
    Option UserDeployment :=
  dictGet s.deployments user_id

/-- UserService.get_user_model (user_service.py lines 120-122). -/
def get_user_model (s : UserServiceState) (user_id : String) :
    Option ModelData :=
  dictGet s.active_models user_id

/-- UserService.stop_deployment (user_service.py lines 128-144): marks the
record STOPPED and removes the active model if one is resident (the
model_loader.unload_model call is an external release). -/
def stop_deployment (s : UserServiceState) (user_id : String) (now : Nat) :
    Bool × UserServiceState :=
  match dictGet s.deployments user_id with
  | none => (false, s)
  | some d =>
      let d2 := { d with status := DeploymentStatus.stopped, updated_at := now }
      let s1 := { s with deployments := dictInsert s.deployments user_id d2 }
      let s2 :=
        if (dictGet s1.active_models user_id).isSome then
          { s1 with active_models := dictErase s1.active_models user_id }
        else s1
      (true, s2)

/-- UserService.delete_deployment (user_service.py lines 146-158): stops
first, then removes the record entirely. -/
def delete_deployment (s : UserServiceState) (user_id : String) (now : Nat) :
    Bool × UserServiceState :=
  match dictGet s.deployments user_id with
  | none => (false, s)
  | some _ =>
      let s1 := (stop_deployment s user_id now).2
      (true, { s1 with deployments := dictErase s1.deployments user_id })

/-- UserService.validate_api_key (user_service.py lines 160-166): true when
no deployment exists for the user or the deployment has api_key_enabled
false; otherwise the Python comparison `deployment.api_key == api_key`. -/
def validate_api_key (s : UserServiceState) (user_id api_key : String) :
    Bool :=
  match dictGet s.deployments user_id with
  | none => true
  | some d =>
      if !d.api_key_enabled then true
      else d.api_key == some api_key

/-- Number of `_load_user_model` coroutines in flight for one user. -/
def loadsInFlight (s : UserServiceState) (user_id : String) : Nat :=
  (s.pending_loads.filter (fun t => t.user_id == user_id)).length

/-- fastapi.HTTPException as raised by app.py. -/
structure HTTPException where
  status_code : Nat
  detail : String
deriving DecidableEq, Repr

/-- app.py verify_api_key (lines 54-73), the FastAPI dependency of the
/user/{user_id}/v1 endpoints.  enableAuth is settings.enable_auth
(config.py default: true); creds is the optional bearer credential
(HTTPBearer with auto_error disabled).  Returns True or raises 401. -/
def verify_api_key (enableAuth : Bool) (s : UserServiceState)
    (user_id : String) (creds : Option String) :
    Except HTTPException Bool :=
  if !enableAuth then .ok true
  else
    match dictGet s.deployments user_id with
    | none => .ok true
    | some d =>
        if !d.api_key_enabled then .ok true
        else
          match creds with
          | none => .error ⟨401, "API key required"⟩
          | some key =>
              if !(validate_api_key s user_id key) then
                .error ⟨401, "Invalid API key"⟩
              else .ok true

/-- models.py ChatMessage. -/
structure ChatMessage where
  role : String
  content : String
deriving DecidableEq, Repr

/-- One entry of the OpenAI-compatible model list built by
app.py get_user_models (lines 168-179). -/
structure ModelEntry where
  id : String
  object : String
  created : Nat
  owned_by : String
  permission : List String
  root : String
  parent : Option String
deriving DecidableEq, Repr

/-- app.py get_user_models (lines 158-179).  The verify_api_key dependency
runs before the endpoint body; the body then checks existence (404) and
readiness via `deployment.status.value != "ready"` (503). -/
def get_user_models (enableAuth : Bool) (s : UserServiceState)
    (user_id : String) (creds : Option String) :
    Except HTTPException (List ModelEntry) :=
  match verify_api_key enableAuth s user_id creds with
  | .error e => .error e
  | .ok _ =>
      match dictGet s.deployments user_id with
      | none => .error ⟨404, "User not found"⟩
      | some d =>
          if d.status.value ≠ "ready" then
            .error ⟨503, "Model not ready"⟩
          else
            .ok [{ id := d.model_name, object := "model",
                   created := d.created_at,
                   owned_by := "user-" ++ user_id, permission := [],
                   root := d.model_name, parent := none }]

/-- models.py ChatCompletionChoice. -/
structure ChatCompletionChoice where
  index : Nat
  message : ChatMessage
  finish_reason : String
deriving DecidableEq, Repr

/-- models.py ChatCompletionUsage. -/
structure ChatCompletionUsage where
  prompt_tokens : Nat
  completion_tokens : Nat
  total_tokens : Nat
deriving DecidableEq, Repr

/-- models.py ChatCompletionResponse. -/
structure ChatCompletionResponse where
  id : String
  object : String
  created : Nat
  model : String
  choices : List ChatCompletionChoice
  usage : ChatCompletionUsage
deriving DecidableEq, Repr

/-- Python str.split() with no argument: split on whitespace runs and drop
empty pieces; used for the approximate token counts. -/
def pyWordCount (s : String) : Nat :=
  ((s.split Char.isWhitespace).filter (fun w => w ≠ "")).length

/-- InferenceService._format_messages_to_prompt (inference_service.py lines
88-106): recognized roles are rendered, others dropped, and a final
"Assistant:" line is appended. -/
def format_messages_to_prompt (messages : List ChatMessage) : String :=
  String.intercalate "\n"
    ((messages.filterMap (fun m =>
      if m.role = "system" then some ("System: " ++ m.content)
      else if m.role = "user" then some ("User: " ++ m.content)
      else if m.role = "assistant" then some ("Assistant: " ++ m.content)
      else none)) ++ ["Assistant:"])

/-- InferenceService.chat_completion (inference_service.py lines 21-86).
ValueError is `.error <message>`.  The generation itself is the external
Model Runtime: response_text is the text produced by _generate_text2text /
_generate_causal_lm; now is int(time.time()) and count the service's
request_count. -/
def chat_completion (s : UserServiceState) (user_id : String)
    (messages : List ChatMessage) (response_text : String)
    (now count : Nat) : Except String ChatCompletionResponse :=
  match get_deployment s user_id with
  | none => .error "User deployment not found"
  | some d =>
      if d.status.value ≠ "ready" then
        .error ("Model not ready. Status: " ++ d.status.pyStr)
      else
        match get_user_model s user_id with
        | none => .error "Model not loaded"
        | some _ =>
            let prompt := format_messages_to_prompt messages
            let prompt_tokens := pyWordCount prompt
            let completion_tokens := pyWordCount response_text
            .ok { id := "chatcmpl-" ++ toString now ++ "-" ++ toString count,
                  object := "chat.completion",
                  created := now,
                  model := d.model_name,
                  choices := [⟨0, ⟨"assistant", response_text⟩, "stop"⟩],
                  usage := ⟨prompt_tokens, completion_tokens,
                    prompt_tokens + completion_tokens⟩ }

/-- app.py user_chat_completions (lines 182-204): the verify_api_key
dependency runs first; a ValueError from chat_completion is converted to
HTTPException(400, str(e)). -/
def user_chat_completions (enableAuth : Bool) (s : UserServiceState)
    (user_id : String) (creds : Option String) (messages : List ChatMessage)
    (response_text : String) (now count : Nat) :
    Except HTTPException ChatCompletionResponse :=
  match verify_api_key enableAuth s user_id creds with
  | .error e => .error e
  | .ok _ =>
      match chat_completion s user_id messages response_text now count with
      | .error msg => .error ⟨400, msg⟩
      | .ok r => .ok r

/-- Decidable equality of endpoint outcomes, for concrete evaluation. -/
instance instDecEqExcept {e a : Type} [DecidableEq e] [DecidableEq a] :
    DecidableEq (Except e a) := fun x y =>
  match x, y with
  | .error e1, .error e2 =>
      match decEq e1 e2 with
      | isTrue h => isTrue (by rw [h])
      | isFalse h => isFalse (by
          intro hc
          injection hc
          contradiction)
  | .ok a1, .ok a2 =>
      match decEq a1 a2 with
      | isTrue h => isTrue (by rw [h])
      | isFalse h => isFalse (by
          intro hc
          injection hc
          contradiction)
  | .error _, .ok _ => isFalse (by intro hc; cases hc)
  | .ok _, .error _ => isFalse (by intro hc; cases hc)

/-- The HTTP status code of an endpoint outcome, none on success. -/
def errStatus {α : Type} : Except HTTPException α → Option Nat
  | .error e => some e.status_code
  | .ok _ => none

/-- A concrete Model Runtime result used in the traces below. -/
def mdA : ModelData := ⟨"text-generation", 1⟩

/-- Trace step: user u1 deploys model m1 (API key off). -/
def sA1 : UserServiceState :=
  (create_deployment initState "m1" .transformers false (some "u1") []
    "fid" "tok" "ip" 8000 0).2

/-- Trace step: the load coroutine for m1 starts and hits its await. -/
def sA2 : UserServiceState := load_user_model_begin sA1 0

/-- Trace step: the m1 load resolves; u1 is READY with handle mdA. -/
def sA3 : UserServiceState := load_user_model_success sA2 0 mdA 1

/-- Trace step: u1 re-deploys a different model m2 while READY. -/
def sA4 : UserServiceState :=
  (create_deployment sA3 "m2" .transformers false (some "u1") []
    "fid" "tok" "ip" 8000 2).2

/-- Trace step: the m2 load coroutine starts and hits its await. -/
def sA5 : UserServiceState := load_user_model_begin sA4 0

/-- Trace step: the m2 load fails. -/
def sA6 : UserServiceState := load_user_model_failure sA5 0 "load failed" 3

/-- Trace step (stop-during-load): u1 is stopped while the m1 load from sA2
is still awaiting the Model Runtime. -/
def sB3 : UserServiceState := (stop_deployment sA2 "u1" 1).2

/-- Trace step: the in-flight m1 load then resolves. -/
def sB4 : UserServiceState := load_user_model_success sB3 0 mdA 2

/-- Trace step (second create while first load in flight): u1 re-deploys m2
before the m1 load from sA1 has even started running. -/
def sC2 : UserServiceState :=
  (create_deployment sA1 "m2" .transformers false (some "u1") []
    "fid" "tok" "ip" 8000 1).2

/-- Trace step (API-key-protected user): u2 deploys m1 with api_key_enabled
true. -/
def sD1 : UserServiceState :=
  (create_deployment initState "m1" .transformers true (some "u2") []
    "fid" "tok" "ip" 8000 0).2

/-- Trace step: the protected load coroutine starts and hits its await. -/
def sD2 : UserServiceState := load_user_model_begin sD1 0

/-- Trace step: the protected load resolves; u2 is READY with handle mdA. -/
def sD3 : UserServiceState := load_user_model_success sD2 0 mdA 1

/-- The u1 record as stored in sA1 and sA2. -/
def exA1 : UserDeployment :=
  ⟨"u1", "m1", .transformers, .deploying, none, false,
    "http://ip:8000/user/u1/v1", 0, 0, none, none, []⟩

/-- The u1 record as stored in sA3 (READY after the m1 load). -/
def exA3 : UserDeployment :=
  ⟨"u1", "m1", .transformers, .ready, none, false,
    "http://ip:8000/user/u1/v1", 0, 1, some 1, none, []⟩

/-- The u1 record as stored in sA4 and sA5 (m2 re-deploy in flight). -/
def exA5 : UserDeployment :=
  ⟨"u1", "m2", .transformers, .deploying, none, false,
    "http://ip:8000/user/u1/v1", 2, 2, none, none, []⟩

/-- The u2 record as stored in sD1 (API key enabled, DEPLOYING). -/
def exD1 : UserDeployment :=
  ⟨"u2", "m1", .transformers, .deploying, some "sk-tok", true,
    "http://ip:8000/user/u2/v1", 0, 0, none, none, []⟩

/-- The u2 record as stored in sD3 (API key enabled, READY). -/
def exD3 : UserDeployment :=
  ⟨"u2", "m1", .transformers, .ready, some "sk-tok", true,
    "http://ip:8000/user/u2/v1", 0, 1, some 1, none, []⟩

/-- One atomic step of the orchestrator: a create_deployment call, one of
the three atomic segments of a `_load_user_model` coroutine (delimited by its
await point), a stop, or a delete.  External inputs (fresh ids, tokens,
clock ticks, Model Runtime outcomes) are constructor arguments. -/
inductive Step : UserServiceState → UserServiceState → Prop where
  | create {s : UserServiceState} (model_name : String)
      (backend : ModelBackend) (api_key_enabled : Bool)
      (userIdOpt : Option String) (custom_config : List (String × String))
      (freshId tok externalIp : String) (port now : Nat) :
      Step s (create_deployment s model_name backend api_key_enabled
        userIdOpt custom_config freshId tok externalIp port now).2
  | loadBegin {s : UserServiceState} (i : Nat)
      (h : (s.pending_loads[i]?).map LoadTask.phase = some .scheduled) :
      Step s (load_user_model_begin s i)
  | loadSuccess {s : UserServiceState} (i : Nat) (md : ModelData) (now : Nat)
      (h : (s.pending_loads[i]?).map LoadTask.phase = some .awaiting) :
      Step s (load_user_model_success s i md now)
  | loadFailure {s : UserServiceState} (i : Nat) (err : String) (now : Nat)
      (h : (s.pending_loads[i]?).map LoadTask.phase = some .awaiting) :
      Step s (load_user_model_failure s i err now)
  | stop {s : UserServiceState} (user_id : String) (now : Nat) :
      Step s (stop_deployment s user_id now).2
  | delete {s : UserServiceState} (user_id : String) (now : Nat) :
      Step s (delete_deployment s user_id now).2

/-- States reachable from process start through orchestrator steps. -/
inductive Reachable : UserServiceState → Prop where
  | init : Reachable initState
  | step {s s2 : UserServiceState} : Reachable s → Step s s2 → Reachable s2

@[simp] theorem dictKeys_nil {α : Type} : dictKeys ([] : List (String × α)) = [] :=
  rfl

@[simp] theorem dictKeys_cons {α : Type} (k1 : String) (v1 : α)
    (tl : List (String × α)) : dictKeys ((k1, v1) :: tl) = k1 :: dictKeys tl :=
  rfl

theorem dictGet_insert_self {α : Type} (d : List (String × α)) (k : String)
    (v : α) : dictGet (dictInsert d k v) k = some v := by
  induction d with
  | nil => simp [dictInsert, dictGet]
  | cons hd tl ih =>
      obtain ⟨k1, v1⟩ := hd
      by_cases h : k1 = k
      · simp [dictInsert, dictGet, h]
      · simp [dictInsert, dictGet, h, ih]

theorem dictGet_insert_ne {α : Type} (d : List (String × α)) (k k2 : String)
    (v : α) (h : k2 ≠ k) : dictGet (dictInsert d k v) k2 = dictGet d k2 := by
  induction d with
  | nil => simp [dictInsert, dictGet, Ne.symm h]
  | cons hd tl ih =>
      obtain ⟨k1, v1⟩ := hd
      by_cases h1 : k1 = k
      · subst h1
        simp [dictInsert, dictGet, Ne.symm h]
      · simp [dictInsert, dictGet, h1, ih]

theorem mem_dictKeys_insert {α : Type} (d : List (String × α)) (k x : String)
    (v : α) : x ∈ dictKeys (dictInsert d k v) ↔ x = k ∨ x ∈ dictKeys d := by
  induction d with
  | nil => simp [dictInsert]
  | cons hd tl ih =>
      obtain ⟨k1, v1⟩ := hd
      by_cases h : k1 = k
      · subst h
        rw [show dictInsert ((k1, v1) :: tl) k1 v = (k1, v) :: tl from by
          simp [dictInsert]]
        simp
      · simp [dictInsert, h, ih]
        tauto

theorem nodup_dictKeys_insert {α : Type} (d : List (String × α)) (k : String)
    (v : α) (h : (dictKeys d).Nodup) :
    (dictKeys (dictInsert d k v)).Nodup := by
  induction d with
  | nil => simp [dictInsert]
  | cons hd tl ih =>
      obtain ⟨k1, v1⟩ := hd
      rw [dictKeys_cons, List.nodup_cons] at h
      by_cases h1 : k1 = k
      · subst h1
        rw [show dictInsert ((k1, v1) :: tl) k1 v = (k1, v) :: tl from by
          simp [dictInsert]]
        rw [dictKeys_cons, List.nodup_cons]
        exact h
      · rw [show dictInsert ((k1, v1) :: tl) k v =
          (k1, v1) :: dictInsert tl k v from by simp [dictInsert, h1]]
        rw [dictKeys_cons, List.nodup_cons]
        refine ⟨?_, ih h.2⟩
        intro hmem
        rcases (mem_dictKeys_insert tl k k1 v).mp hmem with h2 | h2
        · exact h1 h2
        · exact h.1 h2

theorem mem_dictKeys_erase {α : Type} (d : List (String × α)) (k x : String)
    (h : x ∈ dictKeys (dictErase d k)) : x ∈ dictKeys d := by
  induction d with
  | nil => simp [dictErase] at h
  | cons hd tl ih =>
      obtain ⟨k1, v1⟩ := hd
      by_cases h1 : k1 = k
      · subst h1
        rw [show dictErase ((k1, v1) :: tl) k1 = tl from by simp [dictErase]] at h
        simp
        right
        exact h
      · rw [show dictErase ((k1, v1) :: tl) k = (k1, v1) :: dictErase tl k from by
          simp [dictErase, h1]] at h
        rw [dictKeys_cons, List.mem_cons] at h ⊢
        tauto

theorem nodup_dictKeys_erase {α : Type} (d : List (String × α)) (k : String)
    (h : (dictKeys d).Nodup) : (dictKeys (dictErase d k)).Nodup := by
  induction d with
  | nil => simp [dictErase]
  | cons hd tl ih =>
      obtain ⟨k1, v1⟩ := hd
      rw [dictKeys_cons, List.nodup_cons] at h
      by_cases h1 : k1 = k
      · subst h1
        rw [show dictErase ((k1, v1) :: tl) k1 = tl from by simp [dictErase]]
        exact h.2
      · rw [show dictErase ((k1, v1) :: tl) k = (k1, v1) :: dictErase tl k from by
          simp [dictErase, h1]]
        rw [dictKeys_cons, List.nodup_cons]
        exact ⟨fun hm => h.1 (mem_dictKeys_erase tl k k1 hm), ih h.2⟩

theorem create_preserves_nodup (s : UserServiceState) (mn : String)
    (bk : ModelBackend) (ake : Bool) (uid : Option String)
    (cc : List (String × String)) (fid tok ip : String) (port now : Nat)
    (hn : (dictKeys s.deployments).Nodup) :
    (dictKeys ((create_deployment s mn bk ake uid cc fid tok ip port
      now).2).deployments).Nodup := by
  unfold create_deployment
  cases hget : dictGet s.deployments (resolveUserId uid fid) with
  | none =>
      simp only [hget, create_deployment_fresh]
      exact nodup_dictKeys_insert _ _ _ hn
  | some ex =>
      simp only [hget]
      by_cases hc : ex.model_name = mn ∧ ex.status ≠ .error
      · rw [if_pos hc]
        exact hn
      · rw [if_neg hc]
        simp only [create_deployment_fresh]
        exact nodup_dictKeys_insert _ _ _ hn

theorem load_begin_preserves_nodup (s : UserServiceState) (i : Nat)
    (hn : (dictKeys s.deployments).Nodup) :
    (dictKeys (load_user_model_begin s i).deployments).Nodup := by
  unfold load_user_model_begin
  cases ht : s.pending_loads[i]? with
  | none => exact hn
  | some t =>
      simp only
      cases hd : dictGet s.deployments t.user_id with
      | none => exact hn
      | some d =>
          simp only
          exact nodup_dictKeys_insert _ _ _ hn

theorem load_success_preserves_nodup (s : UserServiceState) (i : Nat)
    (md : ModelData) (now : Nat)
    (hn : (dictKeys s.deployments).Nodup) :
    (dictKeys (load_user_model_success s i md now).deployments).Nodup := by
  unfold load_user_model_success
  cases ht : s.pending_loads[i]? with
  | none => exact hn
  | some t =>
      simp only
      cases hd : dictGet s.deployments t.user_id with
      | none => exact hn
      | some d =>
          simp only
          exact nodup_dictKeys_insert _ _ _ hn

theorem load_failure_preserves_nodup (s : UserServiceState) (i : Nat)
    (err : String) (now : Nat)
    (hn : (dictKeys s.deployments).Nodup) :
    (dictKeys (load_user_model_failure s i err now).deployments).Nodup := by
  unfold load_user_model_failure
  cases ht : s.pending_loads[i]? with
  | none => exact hn
  | some t =>
      simp only
      cases hd : dictGet s.deployments t.user_id with
      | none => exact hn
      | some d =>
          simp only
          exact nodup_dictKeys_insert _ _ _ hn

theorem stop_preserves_nodup (s : UserServiceState) (u : String) (now : Nat)
    (hn : (dictKeys s.deployments).Nodup) :
    (dictKeys ((stop_deployment s u now).2).deployments).Nodup := by
  unfold stop_deployment
  cases hd : dictGet s.deployments u with
  | none => exact hn
  | some d =>
      simp only
      split
      · exact nodup_dictKeys_insert _ _ _ hn
      · exact nodup_dictKeys_insert _ _ _ hn

theorem delete_preserves_nodup (s : UserServiceState) (u : String) (now : Nat)
    (hn : (dictKeys s.deployments).Nodup) :
    (dictKeys ((delete_deployment s u now).2).deployments).Nodup := by
  unfold delete_deployment
  cases hd : dictGet s.deployments u with
  | none => exact hn
  | some d =>
      simp only
      exact nodup_dictKeys_erase _ _ (stop_preserves_nodup s u now hn)

theorem step_preserves_nodup {s s2 : UserServiceState} (h : Step s s2)
    (hn : (dictKeys s.deployments).Nodup) :
    (dictKeys s2.deployments).Nodup := by
  cases h with
  | create mn bk ake uid cc fid tok ip port now =>
      exact create_preserves_nodup s mn bk ake uid cc fid tok ip port now hn
  | loadBegin i hp => exact load_begin_preserves_nodup s i hn
  | loadSuccess i md now hp => exact load_success_preserves_nodup s i md now hn
  | loadFailure i err now hp => exact load_failure_preserves_nodup s i err now hn
  | stop u now => exact stop_preserves_nodup s u now hn
  | delete u now => exact delete_preserves_nodup s u now hn

/-- Every reachable registry has duplicate-free user keys: at most one
deployment per user_id. -/
theorem reachable_nodup (s : UserServiceState) (h : Reachable s) :
    (dictKeys s.deployments).Nodup := by
  induction h with
  | init => simp [initState]
  | step _ hs ih => exact step_preserves_nodup hs ih

theorem reach_sA1 : Reachable sA1 :=
  Reachable.step Reachable.init
    (Step.create "m1" ModelBackend.transformers false (some "u1") []
      "fid" "tok" "ip" 8000 0)

theorem reach_sA2 : Reachable sA2 :=
  Reachable.step reach_sA1 (Step.loadBegin 0 (by decide))

theorem reach_sA3 : Reachable sA3 :=
  Reachable.step reach_sA2 (Step.loadSuccess 0 mdA 1 (by decide))

theorem reach_sA4 : Reachable sA4 :=
  Reachable.step reach_sA3
    (Step.create "m2" ModelBackend.transformers false (some "u1") []
      "fid" "tok" "ip" 8000 2)

theorem reach_sA5 : Reachable sA5 :=
  Reachable.step reach_sA4 (Step.loadBegin 0 (by decide))

theorem reach_sA6 : Reachable sA6 :=
  Reachable.step reach_sA5 (Step.loadFailure 0 "load failed" 3 (by decide))

theorem reach_sB3 : Reachable sB3 :=
  Reachable.step reach_sA2 (Step.stop "u1" 1)

theorem reach_sB4 : Reachable sB4 :=
  Reachable.step reach_sB3 (Step.loadSuccess 0 mdA 2 (by decide))

theorem reach_sC2 : Reachable sC2 :=
  Reachable.step reach_sA1
    (Step.create "m2" ModelBackend.transformers false (some "u1") []
      "fid" "tok" "ip" 8000 1)

theorem reach_sD1 : Reachable sD1 :=
  Reachable.step Reachable.init
    (Step.create "m1" ModelBackend.transformers true (some "u2") []
      "fid" "tok" "ip" 8000 0)

theorem reach_sD2 : Reachable sD2 :=
  Reachable.step reach_sD1 (Step.loadBegin 0 (by decide))

theorem reach_sD3 : Reachable sD3 :=
  Reachable.step reach_sD2 (Step.loadSuccess 0 mdA 1 (by decide))

/-- C1: the claimed invariant "status is READY iff an active model handle
exists, preserved by every operation" fails on the code: in the reachable
state sA4 — u1 re-deployed model m2 by create_deployment while READY on m1 —
the old handle mdA is still attached in active_models while the new record's
status is DEPLOYING, because create_deployment overwrites the record without
detaching the handle (and the load-completion path stores the handle without
checking the record). -/
theorem c1_ready_iff_handle_violated :
    Reachable sA4 ∧
    (get_deployment sA4 "u1").map UserDeployment.status =
      some DeploymentStatus.deploying ∧
    get_user_model sA4 "u1" = some mdA :=
  ⟨reach_sA4, by decide, by decide⟩

/-- C2: the claimed stop-during-load discard fails on the code: in the
reachable trace, u1 is stopped (state sB3, status STOPPED) while the m1 load
is still awaiting the Model Runtime, yet when that load resolves
(_load_user_model stores the handle and sets READY without re-checking the
current status) the deployment becomes READY with handle mdA attached,
instead of remaining STOPPED with no handle. -/
theorem c2_stop_during_load_violated :
    Reachable sB4 ∧
    (get_deployment sB3 "u1").map UserDeployment.status =
      some DeploymentStatus.stopped ∧
    (get_deployment sB4 "u1").map UserDeployment.status =
      some DeploymentStatus.ready ∧
    get_user_model sB4 "u1" = some mdA :=
  ⟨reach_sB4, by decide, by decide, by decide⟩

/-- C4: the claimed single-flight guarantee fails on the code: in the
reachable state sC2, u1 called create_deployment for m2 while the load
spawned by the earlier create_deployment for m1 was still in flight; the
repeat create (different model_name) schedules a second _load_user_model
task, so two loads are in flight for the same user_id. -/
theorem c4_single_flight_violated :
    Reachable sC2 ∧ loadsInFlight sC2 "u1" = 2 :=
  ⟨reach_sC2, by decide⟩

/-- C10: for a user_id with no deployment in the registry,
validate_api_key returns true for every presented key (the code returns True
when get_deployment yields nothing), so an unknown user validates
successfully instead of failing validation. -/
theorem c10_unknown_user_validates (s : UserServiceState) (u k : String)
    (h : dictGet s.deployments u = none) :
    validate_api_key s u k = true := by
  simp [validate_api_key, h]

theorem c10_witness : validate_api_key initState "ghost" "" = true :=
  c10_unknown_user_validates initState "ghost" "" (by decide)

/-- Unfolding equation for create_deployment. -/
theorem create_deployment_eq (s : UserServiceState) (mn : String)
    (bk : ModelBackend) (ake : Bool) (uid : Option String)
    (cc : List (String × String)) (fid tok ip : String) (port now : Nat) :
    create_deployment s mn bk ake uid cc fid tok ip port now =
      match dictGet s.deployments (resolveUserId uid fid) with
      | some existing =>
          if existing.model_name = mn ∧ existing.status ≠ .error then
            (existing, s)
          else
            create_deployment_fresh s (resolveUserId uid fid) mn bk ake cc
              tok ip port now
      | none =>
          create_deployment_fresh s (resolveUserId uid fid) mn bk ake cc
            tok ip port now :=
  rfl

/-- C3: create_deployment is idempotent and the registry is keyed by
user_id: every reachable registry has duplicate-free user keys (at most one
deployment per user_id); a repeat create naming the same model for a user
whose existing record is not in ERROR returns that record and leaves the
state unchanged (no duplicate, no new load); any other repeat (different
model_name or prior ERROR) builds a fresh record that overwrites the prior
binding for that user_id. -/
theorem c3_create_idempotent_unique (s : UserServiceState)
    (u mn : String) (ex : UserDeployment) (bk : ModelBackend) (ake : Bool)
    (cc : List (String × String)) (fid tok ip : String) (port now : Nat)
    (hs : Reachable s) :
    (dictKeys s.deployments).Nodup ∧
    (u ≠ "" → dictGet s.deployments u = some ex → ex.model_name = mn →
      ex.status ≠ .error →
      create_deployment s mn bk ake (some u) cc fid tok ip port now =
        (ex, s)) ∧
    (u ≠ "" → dictGet s.deployments u = some ex →
      (ex.model_name ≠ mn ∨ ex.status = .error) →
      (create_deployment s mn bk ake (some u) cc fid tok ip port now).1 =
        freshDeployment u mn bk ake cc tok ip port now ∧
      dictGet ((create_deployment s mn bk ake (some u) cc fid tok ip port
          now).2).deployments u =
        some (freshDeployment u mn bk ake cc tok ip port now)) := by
  refine ⟨reachable_nodup s hs, ?_, ?_⟩
  · intro hu hget hmn hst
    have hres : resolveUserId (some u) fid = u := by simp [resolveUserId, hu]
    rw [create_deployment_eq, hres, hget]
    simp [hmn, hst]
  · intro hu hget hor
    have hres : resolveUserId (some u) fid = u := by simp [resolveUserId, hu]
    have hc : ¬(ex.model_name = mn ∧ ex.status ≠ .error) := by
      rcases hor with h1 | h2
      · exact fun hc => h1 hc.1
      · exact fun hc => hc.2 h2
    rw [create_deployment_eq, hres, hget]
    dsimp only
    rw [if_neg hc]
    constructor
    · simp [create_deployment_fresh]
    · simp only [create_deployment_fresh]
      exact dictGet_insert_self _ _ _

theorem c3_witness :
    create_deployment sA3 "m1" ModelBackend.transformers false (some "u1")
      [] "f2" "t2" "ip2" 9000 7 = (exA3, sA3) :=
  (c3_create_idempotent_unique sA3 "u1" "m1" exA3 ModelBackend.transformers
    false [] "f2" "t2" "ip2" 9000 7 reach_sA3).2.1 (by decide) (by decide)
    (by decide) (by decide)

/-- C5 counterexample: the claim "no handle attached" after a failed load is
false on the code.  In the reachable state sA6 — u1 was READY on m1 with
handle mdA, re-deployed m2, and the m2 load failed — the deployment is in
ERROR with the failure message recorded, yet the stale handle mdA from the
earlier m1 deployment is still attached in active_models. -/
theorem c5_counterexample :
    Reachable sA6 ∧
    (get_deployment sA6 "u1").map UserDeployment.status =
      some DeploymentStatus.error ∧
    (get_deployment sA6 "u1").bind UserDeployment.error_message =
      some "load failed" ∧
    get_user_model sA6 "u1" = some mdA :=
  ⟨reach_sA6, by decide, by decide, by decide⟩

/-- C5 amended: when a background load fails and the deployment record still
exists, the record transitions to ERROR with error_message recording the
cause; the failure path itself attaches no handle (active_models is exactly
unchanged, so any handle present is a leftover of an earlier deployment);
and the failure is never surfaced through create_deployment, whose return
value is either the freshly built DEPLOYING record or the already-stored
record — never a load outcome. -/
theorem c5_load_failure_behavior (s : UserServiceState) (i : Nat)
    (t : LoadTask) (err : String) (now : Nat) (d : UserDeployment)
    (mn : String) (bk : ModelBackend) (ake : Bool) (uid : Option String)
    (cc : List (String × String)) (fid tok ip : String) (port n : Nat)
    (ht : s.pending_loads[i]? = some t)
    (hd : dictGet s.deployments t.user_id = some d) :
    get_deployment (load_user_model_failure s i err now) t.user_id =
      some ({ d with
                status := DeploymentStatus.error
                error_message := some err
                updated_at := now }) ∧
    (load_user_model_failure s i err now).active_models = s.active_models ∧
    ((create_deployment s mn bk ake uid cc fid tok ip port n).1.status =
        DeploymentStatus.deploying ∨
      dictGet s.deployments (resolveUserId uid fid) =
        some (create_deployment s mn bk ake uid cc fid tok ip port n).1) := by
  refine ⟨?_, ?_, ?_⟩
  · rw [show load_user_model_failure s i err now =
        (match dictGet s.deployments t.user_id with
         | some d0 =>
             { s with
               pending_loads := s.pending_loads.eraseIdx i
               deployments := dictInsert s.deployments t.user_id
                 ({ d0 with
                      status := DeploymentStatus.error
                      error_message := some err
                      updated_at := now }) }
         | none => { s with pending_loads := s.pending_loads.eraseIdx i })
      from by rw [load_user_model_failure, ht]]
    rw [hd]
    exact dictGet_insert_self _ _ _
  · rw [show load_user_model_failure s i err now =
        (match dictGet s.deployments t.user_id with
         | some d0 =>
             { s with
               pending_loads := s.pending_loads.eraseIdx i
               deployments := dictInsert s.deployments t.user_id
                 ({ d0 with
                      status := DeploymentStatus.error
                      error_message := some err
                      updated_at := now }) }
         | none => { s with pending_loads := s.pending_loads.eraseIdx i })
      from by rw [load_user_model_failure, ht]]
    rw [hd]
  · rw [create_deployment_eq]
    cases hg : dictGet s.deployments (resolveUserId uid fid) with
    | none =>
        left
        simp [create_deployment_fresh, freshDeployment]
    | some ex =>
        dsimp only
        by_cases hcond : ex.model_name = mn ∧ ex.status ≠ .error
        · right
          rw [if_pos hcond]
        · left
          rw [if_neg hcond]
          simp [create_deployment_fresh, freshDeployment]

theorem c5_witness :
    get_deployment (load_user_model_failure sA5 0 "load failed" 3) "u1" =
      some ({ exA5 with
                status := DeploymentStatus.error
                error_message := some "load failed"
                updated_at := 3 }) ∧
    (load_user_model_failure sA5 0 "load failed" 3).active_models =
      sA5.active_models ∧
    ((create_deployment sA5 "m3" ModelBackend.transformers false (some "u1")
        [] "f3" "t3" "ip3" 8000 9).1.status = DeploymentStatus.deploying ∨
      dictGet sA5.deployments (resolveUserId (some "u1") "f3") =
        some (create_deployment sA5 "m3" ModelBackend.transformers false
          (some "u1") [] "f3" "t3" "ip3" 8000 9).1) :=
  c5_load_failure_behavior sA5 0 ⟨"u1", "m2", .transformers, .awaiting⟩
    "load failed" 3 exA5 "m3" ModelBackend.transformers false (some "u1") []
    "f3" "t3" "ip3" 8000 9 (by decide) (by decide)

/-- C6: for a chat-completion request scoped to a user whose deployment has
api_key_enabled true (with authentication enabled system-wide, the config.py
default), a missing bearer credential is rejected with 401, a wrong bearer
token is rejected with 401, and the correct token passes the gate — the
request then succeeds whenever the deployment is READY with a resident
model. -/
theorem c6_chat_requires_matching_bearer (s : UserServiceState)
    (u key wrong : String) (d : UserDeployment) (msgs : List ChatMessage)
    (rt : String) (now cnt : Nat)
    (hd : dictGet s.deployments u = some d)
    (hen : d.api_key_enabled = true)
    (hkey : d.api_key = some key) :
    user_chat_completions true s u none msgs rt now cnt =
      .error ⟨401, "API key required"⟩ ∧
    (wrong ≠ key →
      user_chat_completions true s u (some wrong) msgs rt now cnt =
        .error ⟨401, "Invalid API key"⟩) ∧
    (d.status = .ready → (get_user_model s u).isSome →
      errStatus (user_chat_completions true s u (some key) msgs rt now
        cnt) = none) := by
  refine ⟨?_, ?_, ?_⟩
  · simp [user_chat_completions, verify_api_key, hd, hen]
  · intro hw
    have hv : validate_api_key s u wrong = false := by
      simp [validate_api_key, hd, hen, hkey]
      exact Ne.symm hw
    simp [user_chat_completions, verify_api_key, hd, hen, hv]
  · intro hst hmodel
    have hv : validate_api_key s u key = true := by
      simp [validate_api_key, hd, hen, hkey]
    rcases Option.isSome_iff_exists.mp hmodel with ⟨md, hmd⟩
    have hmd2 : dictGet s.active_models u = some md := hmd
    simp [user_chat_completions, verify_api_key, hd, hen, hv,
      chat_completion, get_deployment, get_user_model, hst,
      DeploymentStatus.value, errStatus, hmd2]

theorem c6_witness :
    user_chat_completions true sD3 "u2" none [] "hello" 5 0 =
      .error ⟨401, "API key required"⟩ ∧
    user_chat_completions true sD3 "u2" (some "bad") [] "hello" 5 0 =
      .error ⟨401, "Invalid API key"⟩ ∧
    errStatus (user_chat_completions true sD3 "u2" (some "sk-tok") []
      "hello" 5 0) = none := by
  have h := c6_chat_requires_matching_bearer sD3 "u2" "sk-tok" "bad" exD3 []
    "hello" 5 0 (by decide) (by decide) (by decide)
  exact ⟨h.1, h.2.1 (by decide), h.2.2 (by decide) (by decide)⟩

/-- C7: the Auth Gate validation: it passes unconditionally when
authentication is disabled system-wide (settings.enable_auth false, checked
in app.py verify_api_key) or when the deployment has api_key_enabled false
(checked both in verify_api_key and in validate_api_key, for any presented
key); otherwise validation succeeds exactly when the presented key equals
the stored api_key, an absent credential being a distinct 401 rejection. -/
theorem c7_validate_key_gate (enableAuth : Bool) (s : UserServiceState)
    (u k : String) (creds : Option String) (d : UserDeployment) :
    (enableAuth = false →
      verify_api_key enableAuth s u creds = .ok true) ∧
    (dictGet s.deployments u = some d → d.api_key_enabled = false →
      validate_api_key s u k = true ∧
      verify_api_key enableAuth s u creds = .ok true) ∧
    (enableAuth = true → dictGet s.deployments u = some d →
      d.api_key_enabled = true →
      (validate_api_key s u k = true ↔ d.api_key = some k) ∧
      (creds = none →
        verify_api_key enableAuth s u creds =
          .error ⟨401, "API key required"⟩) ∧
      (creds = some k →
        (verify_api_key enableAuth s u creds = .ok true ↔
          d.api_key = some k))) := by
  refine ⟨?_, ?_, ?_⟩
  · intro h
    simp [verify_api_key, h]
  · intro hd hen
    refine ⟨by simp [validate_api_key, hd, hen], ?_⟩
    cases enableAuth with
    | false => simp [verify_api_key]
    | true => simp [verify_api_key, hd, hen]
  · intro ha hd hen
    subst ha
    refine ⟨?_, ?_, ?_⟩
    · simp [validate_api_key, hd, hen]
    · intro hc
      subst hc
      simp [verify_api_key, hd, hen]
    · intro hc
      subst hc
      constructor
      · intro hok
        by_contra hne
        have hb : (d.api_key == some k) = false :=
          beq_eq_false_iff_ne.mpr hne
        have hv : validate_api_key s u k = false := by
          simp [validate_api_key, hd, hen, hb]
        simp [verify_api_key, hd, hen, hv] at hok
      · intro heq
        have hv : validate_api_key s u k = true := by
          simp [validate_api_key, hd, hen, heq]
        simp [verify_api_key, hd, hen, hv]

theorem c7_witness :
    verify_api_key false initState "nobody" none = .ok true ∧
    (validate_api_key sA3 "u1" "anything" = true ∧
      verify_api_key true sA3 "u1" none = .ok true) ∧
    (validate_api_key sD3 "u2" "sk-tok" = true ↔
      exD3.api_key = some "sk-tok") ∧
    verify_api_key true sD3 "u2" none = .error ⟨401, "API key required"⟩ ∧
    (verify_api_key true sD3 "u2" (some "sk-tok") = .ok true ↔
      exD3.api_key = some "sk-tok") := by
  have h1 := (c7_validate_key_gate false initState "nobody" "x" none
    exA3).1 rfl
  have h2 := (c7_validate_key_gate true sA3 "u1" "anything" none exA3).2.1
    (by decide) (by decide)
  have h3 := (c7_validate_key_gate true sD3 "u2" "sk-tok" none exD3).2.2
    rfl (by decide) (by decide)
  have h4 := (c7_validate_key_gate true sD3 "u2" "sk-tok"
    (some "sk-tok") exD3).2.2 rfl (by decide) (by decide)
  exact ⟨h1, h2, h3.1, h3.2.1 rfl, h4.2.2 rfl⟩

/-- C8 counterexample: the claimed check order (NotFound, then NotReady
before any credential is examined, then Unauthorized) is false on the code.
In the reachable state sD1 (u2 protected, status DEPLOYING, not READY):
a model-listing request with a wrong bearer gets 401 Unauthorized — the
credential is examined and rejected before readiness, where the claim
demands 503 NotReady regardless of credential; a chat request for an
unknown user gets a 400 (the ValueError branch), not 404 NotFound; and a
chat request with the correct bearer on the not-ready deployment gets 400,
not a 503 NotReady. -/
theorem c8_counterexample :
    Reachable sD1 ∧
    get_user_models true sD1 "u2" (some "bad") =
      .error ⟨401, "Invalid API key"⟩ ∧
    errStatus (user_chat_completions true sD1 "bob" none [] "hi" 0 0) =
      some 400 ∧
    errStatus (user_chat_completions true sD1 "u2" (some "sk-tok") []
      "hi" 0 0) = some 400 :=
  ⟨reach_sD1, by decide, by decide, by decide⟩

/-- C8 amended: the router's order as implemented.  The verify_api_key
dependency runs first for both endpoints, so any credential failure (a 401)
is returned regardless of the deployment's existence or readiness; once the
credential gate passes, model-listing fails 404 NotFound for an unknown
user_id and 503 NotReady when the status is not READY, while chat-completion
surfaces the same two conditions as 400 errors carrying the ValueError
messages from chat_completion. -/
theorem c8_router_order (enableAuth : Bool) (s : UserServiceState)
    (u : String) (creds : Option String) (msgs : List ChatMessage)
    (rt : String) (now cnt : Nat) (e : HTTPException) (d : UserDeployment) :
    (verify_api_key enableAuth s u creds = .error e →
      e.status_code = 401 ∧
      get_user_models enableAuth s u creds = .error e ∧
      user_chat_completions enableAuth s u creds msgs rt now cnt =
        .error e) ∧
    (verify_api_key enableAuth s u creds = .ok true →
      dictGet s.deployments u = none →
      get_user_models enableAuth s u creds =
        .error ⟨404, "User not found"⟩ ∧
      user_chat_completions enableAuth s u creds msgs rt now cnt =
        .error ⟨400, "User deployment not found"⟩) ∧
    (verify_api_key enableAuth s u creds = .ok true →
      dictGet s.deployments u = some d → d.status.value ≠ "ready" →
      get_user_models enableAuth s u creds =
        .error ⟨503, "Model not ready"⟩ ∧
      user_chat_completions enableAuth s u creds msgs rt now cnt =
        .error ⟨400, "Model not ready. Status: " ++ d.status.pyStr⟩) := by
  refine ⟨?_, ?_, ?_⟩
  · intro hv
    refine ⟨?_, ?_, ?_⟩
    · revert hv
      unfold verify_api_key
      split
      · intro hcontra
        cases hcontra
      · split
        · intro hcontra
          cases hcontra
        · split
          · intro hcontra
            cases hcontra
          · split
            · intro hcontra
              cases hcontra
              rfl
            · split
              · intro hcontra
                cases hcontra
                rfl
              · intro hcontra
                cases hcontra
    · simp [get_user_models, hv]
    · simp [user_chat_completions, hv]
  · intro hv hnone
    constructor
    · simp [get_user_models, hv, hnone]
    · simp [user_chat_completions, hv, chat_completion, get_deployment,
        hnone]
  · intro hv hsome hnr
    constructor
    · simp [get_user_models, hv, hsome, hnr]
    · simp [user_chat_completions, hv, chat_completion, get_deployment,
        hsome, hnr]

theorem c8_witness :
    (get_user_models true sD1 "u2" (some "bad") =
        .error ⟨401, "Invalid API key"⟩ ∧
      user_chat_completions true sD1 "u2" (some "bad") [] "hi" 0 0 =
        .error ⟨401, "Invalid API key"⟩) ∧
    (get_user_models true sD1 "bob" none = .error ⟨404, "User not found"⟩ ∧
      user_chat_completions true sD1 "bob" none [] "hi" 0 0 =
        .error ⟨400, "User deployment not found"⟩) ∧
    (get_user_models true sD1 "u2" (some "sk-tok") =
        .error ⟨503, "Model not ready"⟩ ∧
      user_chat_completions true sD1 "u2" (some "sk-tok") [] "hi" 0 0 =
        .error ⟨400,
          "Model not ready. Status: DeploymentStatus.DEPLOYING"⟩) := by
  have h1 := (c8_router_order true sD1 "u2" (some "bad") [] "hi" 0 0
    ⟨401, "Invalid API key"⟩ exD1).1 (by decide)
  have h2 := (c8_router_order true sD1 "bob" none [] "hi" 0 0
    ⟨401, "x"⟩ exD1).2.1 (by decide) (by decide)
  have h3 := (c8_router_order true sD1 "u2" (some "sk-tok") [] "hi" 0 0
    ⟨401, "x"⟩ exD1).2.2 (by decide) (by decide) (by decide)
  exact ⟨⟨h1.2.1, h1.2.2⟩, h2, h3⟩

/-- C9 counterexample: the claimed state machine is false on the code.
create_deployment inserts the record with status DEPLOYING, never PENDING
(state sA1); and the trace sB3 → sB4 moves a record from STOPPED back to
READY when an in-flight load resolves after a stop, which is not a
transition of the claimed monotonic machine. -/
theorem c9_counterexample :
    Reachable sB4 ∧
    (get_deployment sA1 "u1").map UserDeployment.status =
      some DeploymentStatus.deploying ∧
    (get_deployment sB3 "u1").map UserDeployment.status =
      some DeploymentStatus.stopped ∧
    (get_deployment sB4 "u1").map UserDeployment.status =
      some DeploymentStatus.ready :=
  ⟨reach_sB4, by decide, by decide, by decide⟩

/-- C9 amended: every fresh create inserts the record with status DEPLOYING
(PENDING is defined in models.py but never assigned) in the same atomic step
that schedules the load; thereafter, a resolving load moves whatever record
is present for its user to READY on success or to ERROR on failure —
regardless of the record's current status, so a stop during a load can be
followed by STOPPED → READY — and stop moves any present record to
STOPPED. -/
theorem c9_status_lifecycle (s s2 : UserServiceState) (mn : String)
    (bk : ModelBackend) (ake : Bool) (uid : Option String)
    (cc : List (String × String)) (fid tok ip : String) (port n : Nat)
    (i : Nat) (t : LoadTask) (md : ModelData) (err : String)
    (d : UserDeployment) (u3 : String) (d3 : UserDeployment) (n2 n3 : Nat)
    (hfresh : dictGet s.deployments (resolveUserId uid fid) = none)
    (ht : s2.pending_loads[i]? = some t)
    (hd : dictGet s2.deployments t.user_id = some d)
    (hd3 : dictGet s2.deployments u3 = some d3) :
    ((create_deployment s mn bk ake uid cc fid tok ip port n).1.status =
        DeploymentStatus.deploying ∧
      dictGet ((create_deployment s mn bk ake uid cc fid tok ip port
          n).2).deployments (resolveUserId uid fid) =
        some (create_deployment s mn bk ake uid cc fid tok ip port n).1 ∧
      (create_deployment s mn bk ake uid cc fid tok ip port
          n).2.pending_loads =
        s.pending_loads ++
          [⟨resolveUserId uid fid, mn, bk, LoadPhase.scheduled⟩]) ∧
    get_deployment (load_user_model_success s2 i md n2) t.user_id =
      some ({ d with
                status := DeploymentStatus.ready
                loaded_at := some n2
                updated_at := n2 }) ∧
    get_deployment (load_user_model_failure s2 i err n2) t.user_id =
      some ({ d with
                status := DeploymentStatus.error
                error_message := some err
                updated_at := n2 }) ∧
    get_deployment (stop_deployment s2 u3 n3).2 u3 =
      some ({ d3 with
                status := DeploymentStatus.stopped
                updated_at := n3 }) := by
  refine ⟨?_, ?_, ?_, ?_⟩
  · rw [create_deployment_eq, hfresh]
    dsimp only [create_deployment_fresh]
    exact ⟨rfl, dictGet_insert_self _ _ _, rfl⟩
  · rw [show load_user_model_success s2 i md n2 =
        (match dictGet s2.deployments t.user_id with
         | some d0 =>
             { s2 with
               pending_loads := s2.pending_loads.eraseIdx i
               active_models := dictInsert s2.active_models t.user_id md
               deployments := dictInsert s2.deployments t.user_id
                 ({ d0 with
                      status := DeploymentStatus.ready
                      loaded_at := some n2
                      updated_at := n2 }) }
         | none =>
             { s2 with
               pending_loads := s2.pending_loads.eraseIdx i
               active_models := dictInsert s2.active_models t.user_id md })
      from by rw [load_user_model_success, ht]]
    rw [hd]
    exact dictGet_insert_self _ _ _
  · rw [show load_user_model_failure s2 i err n2 =
        (match dictGet s2.deployments t.user_id with
         | some d0 =>
             { s2 with
               pending_loads := s2.pending_loads.eraseIdx i
               deployments := dictInsert s2.deployments t.user_id
                 ({ d0 with
                      status := DeploymentStatus.error
                      error_message := some err
                      updated_at := n2 }) }
         | none => { s2 with pending_loads := s2.pending_loads.eraseIdx i })
      from by rw [load_user_model_failure, ht]]
    rw [hd]
    exact dictGet_insert_self _ _ _
  · rw [show (stop_deployment s2 u3 n3).2 =
        (match dictGet s2.deployments u3 with
         | some d0 =>
             let s1 := { s2 with
               deployments := dictInsert s2.deployments u3
                 ({ d0 with
                      status := DeploymentStatus.stopped
                      updated_at := n3 }) }
             if (dictGet s1.active_models u3).isSome then
               { s1 with active_models := dictErase s1.active_models u3 }
             else s1
         | none => s2)
      from by
        rw [stop_deployment]
        cases dictGet s2.deployments u3 <;> rfl]
    rw [hd3]
    dsimp only [get_deployment]
    split
    · exact dictGet_insert_self _ _ _
    · exact dictGet_insert_self _ _ _

theorem c9_witness :
    ((create_deployment initState "m1" ModelBackend.transformers false
        (some "u1") [] "fid" "tok" "ip" 8000 0).1.status =
        DeploymentStatus.deploying ∧
      dictGet ((create_deployment initState "m1" ModelBackend.transformers
          false (some "u1") [] "fid" "tok" "ip" 8000
          0).2).deployments (resolveUserId (some "u1") "fid") =
        some (create_deployment initState "m1" ModelBackend.transformers
          false (some "u1") [] "fid" "tok" "ip" 8000 0).1 ∧
      (create_deployment initState "m1" ModelBackend.transformers false
          (some "u1") [] "fid" "tok" "ip" 8000 0).2.pending_loads =
        initState.pending_loads ++
          [⟨resolveUserId (some "u1") "fid", "m1",
            ModelBackend.transformers, LoadPhase.scheduled⟩]) ∧
    get_deployment (load_user_model_success sA2 0 mdA 1) "u1" =
      some ({ exA1 with
                status := DeploymentStatus.ready
                loaded_at := some 1
                updated_at := 1 }) ∧
    get_deployment (load_user_model_failure sA2 0 "boom" 1) "u1" =
      some ({ exA1 with
                status := DeploymentStatus.error
                error_message := some "boom"
                updated_at := 1 }) ∧
    get_deployment (stop_deployment sA2 "u1" 1).2 "u1" =
      some ({ exA1 with
                status := DeploymentStatus.stopped
                updated_at := 1 }) :=
  c9_status_lifecycle initState sA2 "m1" ModelBackend.transformers false
    (some "u1") [] "fid" "tok" "ip" 8000 0 0
    ⟨"u1", "m1", ModelBackend.transformers, LoadPhase.awaiting⟩ mdA "boom"
    exA1 "u1" exA1 1 1 (by decide) (by decide) (by decide) (by decide)

end ModelProxy
